import Mathlib

/-!
Verification of `student_grades.py`: a single-pass batch pipeline that reads
student records from a CSV file, evaluates each record (average, letter grade,
min/max/range, pass/fail) and writes the results to an output CSV file.

The Python program is shallowly embedded:
* a Python dict for one student becomes `StudentDict` (each key `Option`-valued,
  since a dict may lack a key; a `KeyError` is modelled explicitly);
* Python ints become `Int`, the float average becomes `ℚ` (the values involved
  are exact multiples of 1/5, so rational arithmetic is exact here);
* `print` diagnostics become an explicit `Diag` log;
* `sys.exit(1)`, uncaught exceptions and normal completion become the
  constructors of the outcome types below;
* an input file is `Option (List (List String))`: `none` when the file does not
  exist, otherwise the parsed CSV rows (header row included).
-/

namespace StudentGrades

/-- Rounding to 2 decimal places, `round(x, 2)` in the source
(`calculate_average`, line 60).  The tie-breaking rule of the rounding
primitive is irrelevant for this program: every value actually rounded is an
integer multiple of 1/5, hence already exact at 2 decimal places. -/
def round2 (q : ℚ) : ℚ := (round (q * 100) : ℤ) / 100

/-- A Python dict for one student (`read_student_data` builds dicts with the
six keys below; a dict may in principle lack keys, which is what the
`KeyError` handling in the source is about).  `none` models an absent key. -/
structure StudentDict where
  name : Option String
  cyber_security : Option Int
  data_science : Option Int
  computing_foundation : Option Int
  digital_literacy : Option Int
  software_foundation : Option Int
deriving Repr, DecidableEq

/-- `len(student)` in Python: the number of keys present in the dict. -/
def StudentDict.len (s : StudentDict) : Nat :=
  (if s.name.isSome then 1 else 0) +
  (if s.cyber_security.isSome then 1 else 0) +
  (if s.data_science.isSome then 1 else 0) +
  (if s.computing_foundation.isSome then 1 else 0) +
  (if s.digital_literacy.isSome then 1 else 0) +
  (if s.software_foundation.isSome then 1 else 0)

/-- `calculate_average` (source lines 46–63): sums the five subject scores,
divides by `len(student) - 1`, rounds to 2 decimal places.  A missing score
key raises `KeyError`, which the function catches, printing a diagnostic and
returning `None` — modelled by `none`. -/
def calculate_average (student : StudentDict) : Option ℚ :=
  match student.cyber_security, student.data_science, student.computing_foundation,
        student.digital_literacy, student.software_foundation with
  | some a, some b, some c, some d, some e =>
      some (round2 (((a + b + c + d + e : ℤ) : ℚ) / ((student.len - 1 : ℕ) : ℚ)))
  | _, _, _, _, _ => none

/-- `assign_grade` (source lines 65–86): letter grade from the average,
highest threshold first, inclusive lower bounds. -/
def assign_grade (score : ℚ) : String :=
  if 80 ≤ score then "A"
  else if 70 ≤ score then "B"
  else if 60 ≤ score then "C"
  else if 50 ≤ score then "D"
  else if 40 ≤ score then "E"
  else "F"

/-- `calculate_min_max_range` (source lines 88–101): `min`, `max` and their
difference over a list of scores.  Python's `min`/`max` raise `ValueError` on
an empty list, modelled by `none`. -/
def calculate_min_max_range : List Int → Option (Int × Int × Int)
  | [] => none
  | x :: xs =>
      some (xs.foldl min x, xs.foldl max x, xs.foldl max x - xs.foldl min x)

/-- The pass/fail label computed in `process_student_results`
(source line 128): `"Congratulations, you passed!"` iff `average >= 40`. -/
def pass_fail_of (average : ℚ) : String :=
  if 40 ≤ average then "Congratulations, you passed!" else "Fail"

/-- One evaluated student as stored by `process_student_results`
(source lines 131–144): the six input fields plus the derived metrics. -/
structure EvaluatedRecord where
  name : String
  cyber_security : Int
  data_science : Int
  computing_foundation : Int
  digital_literacy : Int
  software_foundation : Int
  average : ℚ
  grade : String
  min_score : Int
  max_score : Int
  score_range : Int
  pass_fail : String
deriving Repr, DecidableEq

/-- Diagnostic lines printed by the program. -/
inductive Diag where
  /-- `"Missing data: {row}"` for a row with fewer than 6 fields (line 24). -/
  | missingData (row : List String)
  /-- `"Invalid data: {row}. Grades must be integers!"` (line 37). -/
  | invalidData (row : List String)
  /-- `"Error: {filename} not found."` (line 41). -/
  | fileNotFound
  /-- `"Missing data: {e}"` from `calculate_average`'s `KeyError` handler (line 62). -/
  | missingField
  /-- `"Results written to {filename}!"` (line 168). -/
  | resultsWritten
  /-- `"No data to write."` (line 170). -/
  | noData
  /-- `"Processing completed. Exiting..."` (line 185). -/
  | completed
deriving Repr, DecidableEq

/-- Result of `process_student_results`: either a normal return with the
collected records and the diagnostics printed along the way, or an uncaught
`KeyError` naming the missing key. -/
inductive ProcResult where
  | ok (res : List EvaluatedRecord) (log : List Diag)
  | keyError (key : String)
deriving Repr, DecidableEq

/-- `process_student_results` (source lines 103–147).  For each student the
loop first builds `student_scores` by direct key access (line 116) — a missing
score key raises `KeyError` right there, uncaught.  Then `calculate_average`;
if it returned `None` the record is skipped (line 121), otherwise grade,
min/max/range and pass/fail are computed and the result dict is built, reading
`student['name']` (line 132) — a missing name also raises `KeyError`. -/
def process_student_results : List StudentDict → ProcResult
  | [] => .ok [] []
  | student :: rest =>
    match student.cyber_security with
    | none => .keyError "cyber_security"
    | some a =>
      match student.data_science with
      | none => .keyError "data_science"
      | some b =>
        match student.computing_foundation with
        | none => .keyError "computing_foundation"
        | some c =>
          match student.digital_literacy with
          | none => .keyError "digital_literacy"
          | some d =>
            match student.software_foundation with
            | none => .keyError "software_foundation"
            | some e =>
              match calculate_average student with
              | none =>
                match process_student_results rest with
                | .ok res log => .ok res (.missingField :: log)
                | .keyError k => .keyError k
              | some average =>
                match student.name with
                | none => .keyError "name"
                | some nm =>
                  let mmr := (calculate_min_max_range [a, b, c, d, e]).getD (0, 0, 0)
                  let rec' : EvaluatedRecord :=
                    { name := nm
                      cyber_security := a
                      data_science := b
                      computing_foundation := c
                      digital_literacy := d
                      software_foundation := e
                      average := average
                      grade := assign_grade average
                      min_score := mmr.1
                      max_score := mmr.2.1
                      score_range := mmr.2.2
                      pass_fail := pass_fail_of average }
                  match process_student_results rest with
                  | .ok res log => .ok (rec' :: res) log
                  | .keyError k => .keyError k

/-- Result of `write_results_to_csv` (source lines 149–170): the file content
written (`none` when no write happened) together with the message printed. -/
def write_results_to_csv (results : List EvaluatedRecord) :
    Option (List EvaluatedRecord) × Diag :=
  if results.isEmpty then (none, .noData) else (some results, .resultsWritten)

/-- Python `int(s)` on a digit string: `none` unless the string is non-empty
and all digits. -/
def parseNatDigits (l : List Char) : Option Nat :=
  if l = [] then none
  else if l.all Char.isDigit then
    some (l.foldl (fun acc c => acc * 10 + (c.toNat - 48)) 0)
  else none

/-- Python `int(s)` applied to one CSV field: optional sign followed by
digits; anything else raises `ValueError`, modelled by `none`. -/
def parseInt (s : String) : Option Int :=
  match s.toList with
  | '-' :: l => (parseNatDigits l).map (fun n => -(n : Int))
  | '+' :: l => (parseNatDigits l).map (fun n => (n : Int))
  | l => (parseNatDigits l).map (fun n => (n : Int))

/-- The five `int(row[i])` conversions of `read_student_data`
(source lines 30–34): all five score fields of the row, or `none` if any
fails to parse. -/
def rowScores (row : List String) : Option (Int × Int × Int × Int × Int) :=
  match parseInt (row.getD 1 ""), parseInt (row.getD 2 ""), parseInt (row.getD 3 ""),
        parseInt (row.getD 4 ""), parseInt (row.getD 5 "") with
  | some a, some b, some c, some d, some e => some (a, b, c, d, e)
  | _, _, _, _, _ => none

/-- Whether a data row triggers the fatal `ValueError` path of the Reader:
it has at least 6 fields (so it is not skipped) and some score field fails
integer parsing. -/
def rowFatal (row : List String) : Bool :=
  !(row.length < 6) && (rowScores row).isNone

/-- Result of the Reader's row loop: either the collected records with the
diagnostics printed, or `sys.exit(1)` after an `"Invalid data"` diagnostic. -/
inductive RowsResult where
  | ok (data : List StudentDict) (log : List Diag)
  | fatal (log : List Diag)
deriving Repr, DecidableEq

/-- The `for row in csv_reader` loop of `read_student_data`
(source lines 21–38): rows with fewer than 6 fields are skipped with a
`"Missing data"` diagnostic; a row whose score fields all parse is appended;
a parse failure prints `"Invalid data"` and exits the process (no further
rows are read). -/
def readRows : List (List String) → RowsResult
  | [] => .ok [] []
  | row :: rest =>
    if row.length < 6 then
      match readRows rest with
      | .ok data log => .ok data (.missingData row :: log)
      | .fatal log => .fatal (.missingData row :: log)
    else
      match rowScores row with
      | none => .fatal [.invalidData row]
      | some (a, b, c, d, e) =>
        match readRows rest with
        | .ok data log =>
            .ok ({ name := some (row.getD 0 ""), cyber_security := some a,
                   data_science := some b, computing_foundation := some c,
                   digital_literacy := some d, software_foundation := some e } :: data) log
        | .fatal log => .fatal log

/-- Result of `read_student_data` (source lines 4–44). -/
inductive ReadResult where
  /-- Normal return of the record list, with the diagnostics printed. -/
  | ok (data : List StudentDict) (log : List Diag)
  /-- `sys.exit(1)`: file not found, or a non-integer score field. -/
  | fatal (log : List Diag)
  /-- Uncaught `StopIteration` from `next(csv_reader)` on a file with no
  rows at all (line 19): only `FileNotFoundError` is handled. -/
  | stopIteration
deriving Repr, DecidableEq

/-- `read_student_data` (source lines 4–44) on the modelled file system:
`none` means the file does not exist (`FileNotFoundError`, print + exit);
otherwise the first row is consumed as the header and the remaining rows run
through the row loop.  An empty file makes `next(csv_reader)` raise
`StopIteration`, which nothing catches. -/
def read_student_data : Option (List (List String)) → ReadResult
  | none => .fatal [.fileNotFound]
  | some [] => .stopIteration
  | some (_header :: rows) =>
    match readRows rows with
    | .ok data log => .ok data log
    | .fatal log => .fatal log

/-- Outcome of one whole run of the program. -/
inductive RunOutcome where
  /-- Exit status 0; `written` is the output file content (`none` when no
  file was written) and `log` the messages printed. -/
  | exitZero (written : Option (List EvaluatedRecord)) (log : List Diag)
  /-- `sys.exit(1)`: non-zero exit status, no output file written. -/
  | exitOne (log : List Diag)
  /-- The process died on an uncaught exception: no output file written. -/
  | uncaught
deriving Repr, DecidableEq

/-- The `__main__` block (source lines 172–185): read the input file; if the
record list is non-empty, process it and write the results; print the
completion message and exit with status 0.  An empty record list skips both
processing and writing. -/
def main (file : Option (List (List String))) : RunOutcome :=
  match read_student_data file with
  | .fatal log => .exitOne log
  | .stopIteration => .uncaught
  | .ok data log =>
    if data.isEmpty then .exitZero none (log ++ [.completed])
    else
      match process_student_results data with
      | .keyError _ => .uncaught
      | .ok results plog =>
        let w := write_results_to_csv results
        .exitZero w.1 (log ++ plog ++ [w.2, .completed])

/-- A complete input tuple (name plus five scores), as produced by the Reader. -/
def mkStudent (nm : String) (a b c d e : Int) : StudentDict :=
  { name := some nm, cyber_security := some a, data_science := some b,
    computing_foundation := some c, digital_literacy := some d,
    software_foundation := some e }

/-- Tuple form of `mkStudent`, for mapping over input lists. -/
def mkStudentT : String × Int × Int × Int × Int × Int → StudentDict
  | (nm, a, b, c, d, e) => mkStudent nm a b c d e

/-- The evaluation `process_student_results` performs on one complete record
(source lines 116–144), as a standalone function of the six input fields. -/
def evalStudent (nm : String) (a b c d e : Int) : EvaluatedRecord :=
  let average := (calculate_average (mkStudent nm a b c d e)).getD 0
  let mmr := (calculate_min_max_range [a, b, c, d, e]).getD (0, 0, 0)
  { name := nm, cyber_security := a, data_science := b, computing_foundation := c,
    digital_literacy := d, software_foundation := e, average := average,
    grade := assign_grade average, min_score := mmr.1, max_score := mmr.2.1,
    score_range := mmr.2.2, pass_fail := pass_fail_of average }

/-- Tuple form of `evalStudent`. -/
def evalStudentT : String × Int × Int × Int × Int × Int → EvaluatedRecord
  | (nm, a, b, c, d, e) => evalStudent nm a b c d e

/-- The record list of a `RowsResult`, `none` after a fatal exit. -/
def RowsResult.dataOf : RowsResult → Option (List StudentDict)
  | .ok data _ => some data
  | .fatal _ => none

/-- The diagnostics of a `RowsResult`. -/
def RowsResult.logOf : RowsResult → List Diag
  | .ok _ log => log
  | .fatal log => log

/-! ### Helper lemmas about `List.foldl min` / `List.foldl max` -/

lemma foldl_min_le_init (xs : List Int) (x : Int) : xs.foldl min x ≤ x := by
  induction xs generalizing x with
  | nil => exact le_refl x
  | cons a l ih =>
    exact le_trans (ih (min x a)) (min_le_left x a)

lemma foldl_min_le_mem (xs : List Int) (x y : Int) (hy : y ∈ xs) :
    xs.foldl min x ≤ y := by
  induction xs generalizing x with
  | nil => cases hy
  | cons a l ih =>
    rcases List.mem_cons.mp hy with rfl | hy'
    · exact le_trans (foldl_min_le_init l (min x y)) (min_le_right x y)
    · exact ih (min x a) hy'

lemma foldl_min_mem (xs : List Int) (x : Int) :
    xs.foldl min x = x ∨ xs.foldl min x ∈ xs := by
  induction xs generalizing x with
  | nil => exact Or.inl rfl
  | cons a l ih =>
    rcases ih (min x a) with h | h
    · rcases min_choice x a with h2 | h2
      · exact Or.inl (by rw [List.foldl_cons, h, h2])
      · exact Or.inr (by rw [List.foldl_cons, h, h2]; exact List.mem_cons_self a l)
    · exact Or.inr (List.mem_cons_of_mem a h)

lemma le_foldl_max_init (xs : List Int) (x : Int) : x ≤ xs.foldl max x := by
  induction xs generalizing x with
  | nil => exact le_refl x
  | cons a l ih =>
    exact le_trans (le_max_left x a) (ih (max x a))

lemma mem_le_foldl_max (xs : List Int) (x y : Int) (hy : y ∈ xs) :
    y ≤ xs.foldl max x := by
  induction xs generalizing x with
  | nil => cases hy
  | cons a l ih =>
    rcases List.mem_cons.mp hy with rfl | hy'
    · exact le_trans (le_max_right x y) (le_foldl_max_init l (max x y))
    · exact ih (max x a) hy'

lemma foldl_max_mem (xs : List Int) (x : Int) :
    xs.foldl max x = x ∨ xs.foldl max x ∈ xs := by
  induction xs generalizing x with
  | nil => exact Or.inl rfl
  | cons a l ih =>
    rcases ih (max x a) with h | h
    · rcases max_choice x a with h2 | h2
      · exact Or.inl (by rw [List.foldl_cons, h, h2])
      · exact Or.inr (by rw [List.foldl_cons, h, h2]; exact List.mem_cons_self a l)
    · exact Or.inr (List.mem_cons_of_mem a h)

/-! ### Helper lemmas about the Aggregator and the Reader -/

lemma process_cons (nm : String) (a b c d e : Int) (rest : List StudentDict) :
    process_student_results (mkStudent nm a b c d e :: rest) =
      match process_student_results rest with
      | .ok res log => .ok (evalStudent nm a b c d e :: res) log
      | .keyError k => .keyError k := rfl

lemma process_map (inputs : List (String × Int × Int × Int × Int × Int)) :
    process_student_results (inputs.map mkStudentT) =
      .ok (inputs.map evalStudentT) [] := by
  induction inputs with
  | nil => rfl
  | cons t rest ih =>
    obtain ⟨nm, a, b, c, d, e⟩ := t
    simp only [List.map_cons, mkStudentT, evalStudentT, process_cons, ih]

lemma readRows_append_fatal (pre : List (List String)) (bad : List String)
    (post : List (List String))
    (hpre : ∀ r ∈ pre, rowFatal r = false) (hbad : rowFatal bad = true) :
    readRows (pre ++ bad :: post) =
      .fatal ((pre.filter (fun r => decide (r.length < 6))).map Diag.missingData
        ++ [.invalidData bad]) := by
  induction pre with
  | nil =>
    have h : ¬ bad.length < 6 ∧ rowScores bad = none := by
      simpa [rowFatal, Option.isNone_iff_eq_none] using hbad
    simp [readRows, h.1, h.2]
  | cons r pre ih =>
    have hr := hpre r (List.mem_cons_self r pre)
    have hrest : ∀ x ∈ pre, rowFatal x = false :=
      fun x hx => hpre x (List.mem_cons_of_mem r hx)
    have ihh := ih hrest
    by_cases hl : r.length < 6
    · simp [readRows, hl, ihh, List.filter_cons]
    · obtain ⟨⟨a, b, c, d, e⟩, ht⟩ : ∃ t, rowScores r = some t := by
        cases hv : rowScores r with
        | none => exact absurd hr (by simp [rowFatal, hl, hv])
        | some t => exact ⟨t, rfl⟩
      simp [readRows, hl, ht, ihh, List.filter_cons]

/-! ### Claim theorems -/

/-- C1: the claim says a record lacking one of the five subject-score fields
is excluded from the output with a diagnostic and processing continues.  The
code instead raises an uncaught `KeyError` while building `student_scores`
(line 116), before the missing-field handling in `calculate_average` can run:
on a record missing `cyber_security`, `process_student_results` dies with
`KeyError` and the remaining records are never processed. -/
theorem c1_missing_field_raises :
    process_student_results
      [{ name := some "Alice", cyber_security := none, data_science := some 85,
         computing_foundation := some 70, digital_literacy := some 95,
         software_foundation := some 100 },
       mkStudent "Bob" 30 40 35 20 25] = .keyError "cyber_security" := rfl

/-- C2 (counterexample): on an input file holding only the header row, the
run completes with exit status 0 and writes no output file, but the only
message printed is the completion message — the `"No data to write."`
diagnostic is NOT emitted, because `__main__` guards the Writer call behind
`if students_data:` and never invokes it for an empty record list. -/
theorem c2_counterexample :
    main (some [["name", "cyber_security", "data_science", "computing_foundation",
                 "digital_literacy", "software_foundation"]]) =
      .exitZero none [.completed] ∧
    Diag.noData ∉ [Diag.completed] := ⟨rfl, by decide⟩

/-- C2 (amended): for an input file holding only a header row, the run
completes with exit status 0, writes no output file, and prints only the
completion message; no "nothing to write" diagnostic is emitted because the
Writer is never called. -/
theorem c2_header_only_run (header : List String) :
    main (some [header]) = .exitZero none [.completed] := rfl

/-- C6: on a list of complete records (the only ones on which
`process_student_results` returns rather than raising `KeyError`), the output
is exactly the per-record evaluation mapped over the input: every record is
evaluated successfully, the output order matches the input order, nothing is
removed, deduplicated, sorted, or computed across records. -/
theorem c6_order_preserving (inputs : List (String × Int × Int × Int × Int × Int)) :
    process_student_results (inputs.map mkStudentT) =
      .ok (inputs.map evalStudentT) [] :=
  process_map inputs

/-- C7: a data row with fewer than 6 fields is skipped: the Reader's row loop
on `row :: rest` yields the same records as on `rest` alone (the short row
contributes no record and fatality is decided by the remaining rows only),
and a `"Missing data"` diagnostic for that row is prepended to the log. -/
theorem c7_short_row_skipped (row : List String) (rest : List (List String))
    (h : row.length < 6) :
    (readRows (row :: rest)).dataOf = (readRows rest).dataOf ∧
    (readRows (row :: rest)).logOf = .missingData row :: (readRows rest).logOf := by
  have : readRows (row :: rest) =
      match readRows rest with
      | .ok data log => .ok data (.missingData row :: log)
      | .fatal log => .fatal (.missingData row :: log) := by
    simp [readRows, h]
  rw [this]
  cases readRows rest <;> simp [RowsResult.dataOf, RowsResult.logOf]

/-- C7 (witness): the concrete 4-field row of the spec's scenario is skipped
with a diagnostic and the following well-formed row is still read. -/
theorem c7_short_row_witness :
    (readRows [["Bob", "30", "40", "35"], ["Alice", "90", "85", "70", "95", "100"]]).dataOf =
      (readRows [["Alice", "90", "85", "70", "95", "100"]]).dataOf ∧
    (readRows [["Bob", "30", "40", "35"], ["Alice", "90", "85", "70", "95", "100"]]).logOf =
      .missingData ["Bob", "30", "40", "35"] ::
        (readRows [["Alice", "90", "85", "70", "95", "100"]]).logOf :=
  c7_short_row_skipped ["Bob", "30", "40", "35"]
    [["Alice", "90", "85", "70", "95", "100"]] (by decide)

/-- C8: on any non-empty score list, `calculate_min_max_range` returns
`(min, max, range)` where `min` and `max` are the minimum and maximum of the
list (members bounding every element), `min ≤ max`, and
`range = max − min ≥ 0`. -/
theorem c8_min_max_range (x : Int) (xs : List Int) :
    ∃ mn mx, calculate_min_max_range (x :: xs) = some (mn, mx, mx - mn) ∧
      mn ≤ mx ∧ 0 ≤ mx - mn ∧ mn ∈ x :: xs ∧ mx ∈ x :: xs ∧
      ∀ y ∈ x :: xs, mn ≤ y ∧ y ≤ mx := by
  refine ⟨xs.foldl min x, xs.foldl max x, rfl,
    le_trans (foldl_min_le_init xs x) (le_foldl_max_init xs x),
    sub_nonneg.mpr (le_trans (foldl_min_le_init xs x) (le_foldl_max_init xs x)),
    ?_, ?_, ?_⟩
  · rcases foldl_min_mem xs x with h | h
    · rw [h]; exact List.mem_cons_self x xs
    · exact List.mem_cons_of_mem x h
  · rcases foldl_max_mem xs x with h | h
    · rw [h]; exact List.mem_cons_self x xs
    · exact List.mem_cons_of_mem x h
  · intro y hy
    rcases List.mem_cons.mp hy with rfl | hy'
    · exact ⟨foldl_min_le_init xs y, le_foldl_max_init xs y⟩
    · exact ⟨foldl_min_le_mem xs x y hy', mem_le_foldl_max xs x y hy'⟩

/-- C8 (witness): on the spec's scenario scores `[90, 85, 70, 95, 100]` the
theorem yields `(70, 100, 30)` with `70 ≤ 100` and a non-negative range. -/
theorem c8_min_max_range_witness :
    calculate_min_max_range [90, 85, 70, 95, 100] = some (70, 100, 30) ∧
    (70 : Int) ≤ 100 ∧ (0 : Int) ≤ 30 ∧ (70 : Int) ≤ 90 ∧ (90 : Int) ≤ 100 := by
  obtain ⟨mn, mx, h1, hle, hnn, -, -, hall⟩ := c8_min_max_range 90 [85, 70, 95, 100]
  have h2 : some ((70 : Int), (100 : Int), (30 : Int)) = some (mn, mx, mx - mn) := by
    rw [← h1]; decide
  have h3 : (70 : Int) = mn ∧ (100 : Int) = mx ∧ (30 : Int) = mx - mn := by
    simpa using h2
  obtain ⟨e1, e2, e3⟩ := h3
  have hb := hall 90 (by decide)
  exact ⟨by rw [h1, ← e3, ← e1, ← e2], by rw [e1, e2]; exact hle,
    by rw [e3]; exact hnn, by rw [e1]; exact hb.1, by rw [e2]; exact hb.2⟩

/-- C3: on a record holding exactly the six fields, `calculate_average`
returns the mean of the five scores rounded to 2 decimal places — and that
rounding is the identity here, since a sum of integers divided by 5 is
already exact at 2 decimal places — and when every score lies in `[0, 100]`
the returned average lies in `[0, 100]`. -/
theorem c3_calculate_average_mean (nm : String) (a b c d e : Int) :
    calculate_average (mkStudent nm a b c d e) =
      some (round2 (((a + b + c + d + e : ℤ) : ℚ) / 5)) ∧
    round2 (((a + b + c + d + e : ℤ) : ℚ) / 5) = ((a + b + c + d + e : ℤ) : ℚ) / 5 ∧
    (0 ≤ a → a ≤ 100 → 0 ≤ b → b ≤ 100 → 0 ≤ c → c ≤ 100 → 0 ≤ d → d ≤ 100 →
      0 ≤ e → e ≤ 100 →
      0 ≤ ((a + b + c + d + e : ℤ) : ℚ) / 5 ∧
        ((a + b + c + d + e : ℤ) : ℚ) / 5 ≤ 100) := by
  have hround : round2 (((a + b + c + d + e : ℤ) : ℚ) / 5) =
      ((a + b + c + d + e : ℤ) : ℚ) / 5 := by
    unfold round2
    have h1 : (((a + b + c + d + e : ℤ) : ℚ) / 5) * 100 =
        ((20 * (a + b + c + d + e) : ℤ) : ℚ) := by push_cast; ring
    rw [h1, round_intCast]
    push_cast; ring
  refine ⟨?_, hround, ?_⟩
  · have hl : (mkStudent nm a b c d e).len = 6 := rfl
    show some (round2 (((a + b + c + d + e : ℤ) : ℚ) /
      (((mkStudent nm a b c d e).len - 1 : ℕ) : ℚ))) = _
    rw [hl]
    norm_num
  · intro ha1 ha2 hb1 hb2 hc1 hc2 hd1 hd2 he1 he2
    have h1 : (0 : ℚ) ≤ ((a + b + c + d + e : ℤ) : ℚ) := by
      exact_mod_cast (by linarith : (0 : ℤ) ≤ a + b + c + d + e)
    have h2 : ((a + b + c + d + e : ℤ) : ℚ) ≤ 500 := by
      exact_mod_cast (by linarith : (a + b + c + d + e : ℤ) ≤ 500)
    constructor
    · positivity
    · rw [div_le_iff₀ (by norm_num : (0 : ℚ) < 5)]; linarith

/-- C3 (witness): on the spec's scenario record `Alice,90,85,70,95,100` the
average is the mean `88`, within bounds. -/
theorem c3_calculate_average_witness :
    calculate_average (mkStudent "Alice" 90 85 70 95 100) =
      some (round2 (((90 + 85 + 70 + 95 + 100 : ℤ) : ℚ) / 5)) ∧
    round2 (((90 + 85 + 70 + 95 + 100 : ℤ) : ℚ) / 5) =
      ((90 + 85 + 70 + 95 + 100 : ℤ) : ℚ) / 5 ∧
    0 ≤ ((90 + 85 + 70 + 95 + 100 : ℤ) : ℚ) / 5 ∧
    ((90 + 85 + 70 + 95 + 100 : ℤ) : ℚ) / 5 ≤ 100 := by
  have h := c3_calculate_average_mean "Alice" 90 85 70 95 100
  have hb := h.2.2 (by norm_num) (by norm_num) (by norm_num) (by norm_num)
    (by norm_num) (by norm_num) (by norm_num) (by norm_num) (by norm_num)
    (by norm_num)
  exact ⟨h.1, h.2.1, hb.1, hb.2⟩

/-- C4: `assign_grade` realizes the non-overlapping inclusive-lower-bound
thresholds (≥80→A, [70,80)→B, [60,70)→C, [50,60)→D, [40,50)→E, <40→F), and
the pass/fail label of `process_student_results` is the pass indicator
exactly when the average is ≥ 40. -/
theorem c4_assign_grade_thresholds (q : ℚ) :
    (80 ≤ q → assign_grade q = "A") ∧
    (70 ≤ q → q < 80 → assign_grade q = "B") ∧
    (60 ≤ q → q < 70 → assign_grade q = "C") ∧
    (50 ≤ q → q < 60 → assign_grade q = "D") ∧
    (40 ≤ q → q < 50 → assign_grade q = "E") ∧
    (q < 40 → assign_grade q = "F") ∧
    (pass_fail_of q = "Congratulations, you passed!" ↔ 40 ≤ q) ∧
    (pass_fail_of q = "Fail" ↔ q < 40) := by
  unfold assign_grade pass_fail_of
  refine ⟨?_, ?_, ?_, ?_, ?_, ?_, ?_, ?_⟩
  · intro h1; rw [if_pos h1]
  · intro h1 h2; rw [if_neg (not_le.mpr h2), if_pos h1]
  · intro h1 h2
    rw [if_neg (not_le.mpr (by linarith)), if_neg (not_le.mpr h2), if_pos h1]
  · intro h1 h2
    rw [if_neg (not_le.mpr (by linarith)), if_neg (not_le.mpr (by linarith)),
      if_neg (not_le.mpr h2), if_pos h1]
  · intro h1 h2
    rw [if_neg (not_le.mpr (by linarith)), if_neg (not_le.mpr (by linarith)),
      if_neg (not_le.mpr (by linarith)), if_neg (not_le.mpr h2), if_pos h1]
  · intro h1
    rw [if_neg (not_le.mpr (by linarith)), if_neg (not_le.mpr (by linarith)),
      if_neg (not_le.mpr (by linarith)), if_neg (not_le.mpr (by linarith)),
      if_neg (not_le.mpr h1)]
  · by_cases h : (40 : ℚ) ≤ q
    · rw [if_pos h]; exact ⟨fun _ => h, fun _ => rfl⟩
    · rw [if_neg h]
      exact ⟨fun hc => absurd hc (by decide), fun hc => absurd hc h⟩
  · by_cases h : (40 : ℚ) ≤ q
    · rw [if_pos h]
      exact ⟨fun hc => absurd hc (by decide), fun hc => absurd h (not_le.mpr hc)⟩
    · rw [if_neg h]; exact ⟨fun _ => not_le.mp h, fun _ => rfl⟩

/-- C4 (witness): the spec's boundary cases — average 80 → A, 79.99 → B,
40 → E and pass, 39.99 → F and fail. -/
theorem c4_thresholds_witness :
    assign_grade 80 = "A" ∧ assign_grade (7999 / 100) = "B" ∧
    assign_grade 40 = "E" ∧ pass_fail_of 40 = "Congratulations, you passed!" ∧
    assign_grade (3999 / 100) = "F" ∧ pass_fail_of (3999 / 100) = "Fail" :=
  ⟨(c4_assign_grade_thresholds 80).1 (by norm_num),
    (c4_assign_grade_thresholds (7999 / 100)).2.1 (by norm_num) (by norm_num),
    (c4_assign_grade_thresholds 40).2.2.2.2.1 (by norm_num) (by norm_num),
    ((c4_assign_grade_thresholds 40).2.2.2.2.2.2.1).mpr (by norm_num),
    (c4_assign_grade_thresholds (3999 / 100)).2.2.2.2.2.1 (by norm_num),
    ((c4_assign_grade_thresholds (3999 / 100)).2.2.2.2.2.2.2).mpr (by norm_num)⟩

/-- C5: whenever some data row has at least 6 fields and a score field that
does not parse as an integer (and is not preceded by another fatal row), the
whole run exits with status 1 after an `"Invalid data"` diagnostic naming
that row; the outcome carries no output file, and it is identical for every
possible remainder of the input file — no further rows are read. -/
theorem c5_invalid_score_aborts (header : List String) (pre : List (List String))
    (bad : List String)
    (hpre : ∀ r ∈ pre, rowFatal r = false) (hbad : rowFatal bad = true) :
    ∃ log, Diag.invalidData bad ∈ log ∧
      ∀ post, main (some (header :: (pre ++ bad :: post))) = .exitOne log := by
  refine ⟨(pre.filter (fun r => decide (r.length < 6))).map Diag.missingData
      ++ [.invalidData bad],
    List.mem_append_right _ (List.mem_singleton_self _), fun post => ?_⟩
  have h := readRows_append_fatal pre bad post hpre hbad
  simp [main, read_student_data, h]

/-- C5 (witness): the spec's scenario row `Carl,abc,50,60,70,80` aborts the
run with exit status 1 and the `"Invalid data"` diagnostic; a well-formed row
after it is never read. -/
theorem c5_invalid_score_witness :
    main (some [["name"], ["Ann", "1", "2", "3"],
        ["Carl", "abc", "50", "60", "70", "80"],
        ["Late", "99", "98", "97", "96", "95"]]) =
      .exitOne [.missingData ["Ann", "1", "2", "3"],
        .invalidData ["Carl", "abc", "50", "60", "70", "80"]] := by
  obtain ⟨log, hmem, hall⟩ := c5_invalid_score_aborts ["name"]
    [["Ann", "1", "2", "3"]] ["Carl", "abc", "50", "60", "70", "80"]
    (by decide) (by decide)
  have h1 := hall [["Late", "99", "98", "97", "96", "95"]]
  have h0 := hall []
  have h2 : main (some [["name"], ["Ann", "1", "2", "3"],
      ["Carl", "abc", "50", "60", "70", "80"]]) =
      .exitOne [.missingData ["Ann", "1", "2", "3"],
        .invalidData ["Carl", "abc", "50", "60", "70", "80"]] := by decide
  exact h1.trans (h0.symm.trans h2)

/-- C9: whenever `process_student_results` returns normally on a list of
complete records, each output record carries exactly the name and the five
subject scores of the input record at the same position — evaluation adds
derived fields but never alters the original scores. -/
theorem c9_fields_preserved (inputs : List (String × Int × Int × Int × Int × Int))
    (res : List EvaluatedRecord) (log : List Diag)
    (h : process_student_results (inputs.map mkStudentT) = .ok res log)
    (i : Nat) (hi : i < inputs.length) (hr : i < res.length) :
    (res.get ⟨i, hr⟩).name = (inputs.get ⟨i, hi⟩).1 ∧
    (res.get ⟨i, hr⟩).cyber_security = (inputs.get ⟨i, hi⟩).2.1 ∧
    (res.get ⟨i, hr⟩).data_science = (inputs.get ⟨i, hi⟩).2.2.1 ∧
    (res.get ⟨i, hr⟩).computing_foundation = (inputs.get ⟨i, hi⟩).2.2.2.1 ∧
    (res.get ⟨i, hr⟩).digital_literacy = (inputs.get ⟨i, hi⟩).2.2.2.2.1 ∧
    (res.get ⟨i, hr⟩).software_foundation = (inputs.get ⟨i, hi⟩).2.2.2.2.2 := by
  have h2 := process_map inputs
  rw [h] at h2
  injection h2 with h3 h4
  subst h3
  have hg : (inputs.map evalStudentT).get ⟨i, hr⟩ =
      evalStudentT (inputs.get ⟨i, hi⟩) := by
    simp [List.get_eq_getElem, List.getElem_map]
  rw [hg]
  obtain ⟨nm, a, b, c, d, e⟩ := inputs.get ⟨i, hi⟩
  exact ⟨rfl, rfl, rfl, rfl, rfl, rfl⟩

/-- C9 (witness): on the spec's scenario record the evaluated output keeps
the name `Alice` and the five scores `90, 85, 70, 95, 100` unchanged. -/
theorem c9_fields_witness :
    (([evalStudentT ("Alice", (90 : Int), 85, 70, 95, 100)].get
        ⟨0, by decide⟩).name = "Alice") ∧
    (([evalStudentT ("Alice", (90 : Int), 85, 70, 95, 100)].get
        ⟨0, by decide⟩).cyber_security = 90) ∧
    (([evalStudentT ("Alice", (90 : Int), 85, 70, 95, 100)].get
        ⟨0, by decide⟩).data_science = 85) ∧
    (([evalStudentT ("Alice", (90 : Int), 85, 70, 95, 100)].get
        ⟨0, by decide⟩).computing_foundation = 70) ∧
    (([evalStudentT ("Alice", (90 : Int), 85, 70, 95, 100)].get
        ⟨0, by decide⟩).digital_literacy = 95) ∧
    (([evalStudentT ("Alice", (90 : Int), 85, 70, 95, 100)].get
        ⟨0, by decide⟩).software_foundation = 100) := by
  have h := c9_fields_preserved [("Alice", 90, 85, 70, 95, 100)]
    [evalStudentT ("Alice", 90, 85, 70, 95, 100)] [] rfl 0 (by decide) (by decide)
  exact h

/-- C10: on an input file that exists but is completely empty (no rows at
all), `read_student_data` dies on the uncaught `StopIteration` raised by
reading the header, so the whole run terminates abnormally — neither a normal
return nor one of the handled fatal-exit paths. -/
theorem c10_empty_file_uncaught :
    read_student_data (some []) = .stopIteration ∧
    main (some []) = .uncaught := ⟨rfl, rfl⟩

end StudentGrades
